import Mathlib

/-!
Shallow embedding of the recursive-descent parser of
umangshrestha/yet-another-interpretor-in-go (files src/parser/mod.rs,
src/ast/expr/visitor.rs, src/ast/stmt/visitor.rs).

The Rust parser pulls tokens one at a time from a lexer; here the token
source is a finite list, and the lexer's behavior of returning the
end-of-input sentinel forever once exhausted is modelled by `lexerNext`
returning an Eof token on the empty list.  Recursion in the Rust code is
unbounded (it follows the grammar), so every parsing function takes an
explicit fuel argument; exhausting the fuel yields the artificial error
kind `Error.Fuel`, which no run with sufficient fuel ever produces.
-/

/-- Source span.  The concrete field layout of the Rust `Span` is opaque to
the parser (spans are only copied around), so it is modelled as three
natural numbers. -/
structure Span where
  start : Nat
  length : Nat
  line : Nat
deriving DecidableEq, Repr

/-- Token tags, from the `TokenType` enum as used by src/parser/mod.rs.
The numeric literal payload is opaque to the parser (it is only copied
into the AST), so it is modelled as `Int`. -/
inductive TokenType where
  | Eof
  | Let
  | Const
  | Class
  | Function
  | Print
  | If
  | Else
  | While
  | For
  | Return
  | LCurly
  | RCurly
  | LBrace
  | RBrace
  | LParen
  | RParen
  | Semicolon
  | Comma
  | Dot
  | Assign
  | PlusEq
  | SubEq
  | ModEq
  | DivEq
  | AndEq
  | OrEq
  | MulEq
  | XorEq
  | Or
  | LAnd
  | Eq
  | Ne
  | Gt
  | Gte
  | Lt
  | Lte
  | Plus
  | Minus
  | And
  | Xor
  | Times
  | Divide
  | Not
  | Super
  | This
  | True
  | False
  | Number (x : Int)
  | String (s : String)
  | Identifier (name : String)
deriving Repr

/-- Constructor index of a token tag, used only to build the decidable
equality below (the derived instance produces an impractically large
term for a 51-constructor enum). -/
def encTok : TokenType → Nat × Int × String
  | .Eof => (0, 0, "")
  | .Let => (1, 0, "")
  | .Const => (2, 0, "")
  | .Class => (3, 0, "")
  | .Function => (4, 0, "")
  | .Print => (5, 0, "")
  | .If => (6, 0, "")
  | .Else => (7, 0, "")
  | .While => (8, 0, "")
  | .For => (9, 0, "")
  | .Return => (10, 0, "")
  | .LCurly => (11, 0, "")
  | .RCurly => (12, 0, "")
  | .LBrace => (13, 0, "")
  | .RBrace => (14, 0, "")
  | .LParen => (15, 0, "")
  | .RParen => (16, 0, "")
  | .Semicolon => (17, 0, "")
  | .Comma => (18, 0, "")
  | .Dot => (19, 0, "")
  | .Assign => (20, 0, "")
  | .PlusEq => (21, 0, "")
  | .SubEq => (22, 0, "")
  | .ModEq => (23, 0, "")
  | .DivEq => (24, 0, "")
  | .AndEq => (25, 0, "")
  | .OrEq => (26, 0, "")
  | .MulEq => (27, 0, "")
  | .XorEq => (28, 0, "")
  | .Or => (29, 0, "")
  | .LAnd => (30, 0, "")
  | .Eq => (31, 0, "")
  | .Ne => (32, 0, "")
  | .Gt => (33, 0, "")
  | .Gte => (34, 0, "")
  | .Lt => (35, 0, "")
  | .Lte => (36, 0, "")
  | .Plus => (37, 0, "")
  | .Minus => (38, 0, "")
  | .And => (39, 0, "")
  | .Xor => (40, 0, "")
  | .Times => (41, 0, "")
  | .Divide => (42, 0, "")
  | .Not => (43, 0, "")
  | .Super => (44, 0, "")
  | .This => (45, 0, "")
  | .True => (46, 0, "")
  | .False => (47, 0, "")
  | .Number x => (48, x, "")
  | .String s => (49, 0, s)
  | .Identifier s => (50, 0, s)

/-- Left inverse of `TokenType.enc`; `enc_dec` below checks the pair by
computation, so `TokenType.enc` is provably injective. -/
def decTok : Nat × Int × String → TokenType
  | p =>
    match p.1 with
    | 0 => .Eof
    | 1 => .Let
    | 2 => .Const
    | 3 => .Class
    | 4 => .Function
    | 5 => .Print
    | 6 => .If
    | 7 => .Else
    | 8 => .While
    | 9 => .For
    | 10 => .Return
    | 11 => .LCurly
    | 12 => .RCurly
    | 13 => .LBrace
    | 14 => .RBrace
    | 15 => .LParen
    | 16 => .RParen
    | 17 => .Semicolon
    | 18 => .Comma
    | 19 => .Dot
    | 20 => .Assign
    | 21 => .PlusEq
    | 22 => .SubEq
    | 23 => .ModEq
    | 24 => .DivEq
    | 25 => .AndEq
    | 26 => .OrEq
    | 27 => .MulEq
    | 28 => .XorEq
    | 29 => .Or
    | 30 => .LAnd
    | 31 => .Eq
    | 32 => .Ne
    | 33 => .Gt
    | 34 => .Gte
    | 35 => .Lt
    | 36 => .Lte
    | 37 => .Plus
    | 38 => .Minus
    | 39 => .And
    | 40 => .Xor
    | 41 => .Times
    | 42 => .Divide
    | 43 => .Not
    | 44 => .Super
    | 45 => .This
    | 46 => .True
    | 47 => .False
    | 48 => .Number p.2.1
    | 49 => .String p.2.2
    | 50 => .Identifier p.2.2
    | _ => .Eof

theorem decTok_encTok : ∀ t : TokenType, decTok (encTok t) = t := by
  intro t
  cases t <;> rfl

instance : DecidableEq TokenType := fun a b =>
  if h : encTok a = encTok b then
    .isTrue (by
      have h2 := congrArg decTok h
      rwa [decTok_encTok, decTok_encTok] at h2)
  else
    .isFalse (fun hh => h (congrArg encTok hh))

/-- Rendering of a token tag to text.  The Rust `Display` implementation
for `TokenType` is not part of the parser sources; the rendered text only
appears inside syntax-error message strings, which no parsing decision
(and no claim) inspects, so any injective-enough rendering is faithful. -/
def displayTok : TokenType → String
  | .Eof => "Eof"
  | .Let => "let"
  | .Const => "const"
  | .Class => "class"
  | .Function => "fn"
  | .Print => "print"
  | .If => "if"
  | .Else => "else"
  | .While => "while"
  | .For => "for"
  | .Return => "return"
  | .LCurly => "LCurly"
  | .RCurly => "RCurly"
  | .LBrace => "LBrace"
  | .RBrace => "RBrace"
  | .LParen => "LParen"
  | .RParen => "RParen"
  | .Semicolon => ";"
  | .Comma => ","
  | .Dot => "."
  | .Assign => "="
  | .PlusEq => "+="
  | .SubEq => "-="
  | .ModEq => "%="
  | .DivEq => "/="
  | .AndEq => "&="
  | .OrEq => "|="
  | .MulEq => "*="
  | .XorEq => "^="
  | .Or => "or"
  | .LAnd => "and"
  | .Eq => "=="
  | .Ne => "!="
  | .Gt => ">"
  | .Gte => ">="
  | .Lt => "<"
  | .Lte => "<="
  | .Plus => "+"
  | .Minus => "-"
  | .And => "&"
  | .Xor => "^"
  | .Times => "*"
  | .Divide => "/"
  | .Not => "!"
  | .Super => "super"
  | .This => "this"
  | .True => "true"
  | .False => "false"
  | .Number _ => "Number"
  | .String _ => "String"
  | .Identifier _ => "Identifier"

/-- A token together with its span (Rust `TokenInfo`). -/
structure TokenInfo where
  token : TokenType
  span : Span
deriving DecidableEq, Repr

/-- `TokenInfo::is`: tag equality test. -/
def TokenInfo.is (ti : TokenInfo) (ty : TokenType) : Bool :=
  decide (ti.token = ty)

/-- The sentinel `TokenInfo::new(TokenType::Eof, 0, 0, 0)` used to
initialize `prev` in `Parser::new`, and the token the exhausted lexer
keeps returning. -/
def eofTok : TokenInfo := ⟨TokenType.Eof, ⟨0, 0, 0⟩⟩

/-- Literal payloads (Rust `LiteralType`). -/
inductive LiteralType where
  | Boolean (b : Bool)
  | Number (x : Int)
  | String (s : String)
deriving DecidableEq, Repr

/-- Expression nodes, from the `Expr` enum as used by src/parser/mod.rs and
src/ast/expr/visitor.rs (one constructor per visitor method). -/
inductive Expr where
  | Literal (value : LiteralType) (span : Span)
  | Variable (name : String) (span : Span)
  | Grouping (expr : Expr) (span : Span)
  | Unary (op : TokenType) (right : Expr) (span : Span)
  | Binary (left : Expr) (op : TokenType) (right : Expr) (span : Span)
  | Logical (left : Expr) (op : TokenType) (right : Expr) (span : Span)
  | Assign (name : String) (value : Expr) (span : Span)
  | Get (object : Expr) (name : String) (span : Span)
  | Set (object : Expr) (name : String) (value : Expr) (span : Span)
  | Call (callee : Expr) (paren : TokenType) (args : List Expr) (span : Span)
  | Super (name : String) (span : Span)
deriving Repr

/-- Statement nodes, from the `Stmt` enum as used by src/parser/mod.rs and
src/ast/stmt/visitor.rs (one constructor per visitor method; the parser
itself never builds `Break` or `Continue`, but the statement model and the
visitor contract have them). -/
inductive Stmt where
  | Expr (expr : Expr) (span : Span)
  | Print (expr : Expr) (span : Span)
  | Block (stmt : List Stmt) (span : Span)
  | Let (name : String) (value : Option Expr) (is_const : Bool) (span : Span)
  | If (condition : Expr) (truthy : Stmt) (falsy : Option Stmt) (span : Span)
  | While (condition : Expr) (body : Stmt) (span : Span)
  | For (initializer : Option Stmt) (condition : Option Expr)
      (increment : Option Expr) (body : Stmt) (span : Span)
  | Function (name : String) (params : List String) (body : Stmt) (span : Span)
  | Return (value : Option Expr) (span : Span)
  | Class (name : String) (super_class : Option String) (methods : List Stmt) (span : Span)
  | Break (span : Span)
  | Continue (span : Span)
deriving Repr

/-- The parse unit's output: an ordered sequence of top-level statements. -/
structure Program where
  stmt : List Stmt
deriving Repr

/-- Error kinds of the crate `Error` enum that the parser constructs
(`Error::Parse` and `Error::Syntax`), plus the artificial `Fuel` kind
marking fuel exhaustion of the embedding (never produced by a run with
sufficient fuel). -/
inductive Error where
  | Parse (msg : String)
  | SyntaxError (msg : String)
  | Fuel
deriving DecidableEq, Repr

/-- `ErrorInfo::new_with_span`. -/
structure ErrorInfo where
  error : Error
  span : Span
deriving DecidableEq, Repr

/-- Parser state: the not-yet-pulled rest of the token stream plus the
two-token lookahead buffer (`prev`, `curr`) of the Rust `Parser` struct. -/
structure ParserState where
  lexer : List TokenInfo
  prev : TokenInfo
  curr : TokenInfo
deriving Repr

/-- One pull from the token source; the exhausted lexer keeps returning
the end-of-input sentinel. -/
def lexerNext : List TokenInfo → TokenInfo × List TokenInfo
  | [] => (eofTok, [])
  | t :: ts => (t, ts)

/-- `Parser::new`: initialize `prev` to the Eof sentinel and pull the
first token into `curr`. -/
def Parser.new (ts : List TokenInfo) : ParserState :=
  let (c, rest) := lexerNext ts
  ⟨rest, eofTok, c⟩

/-- `Parser::advance`: shift `curr` into `prev`, pull a fresh token, and
return the just-consumed token's tag and span. -/
def Parser.advance (s : ParserState) : (TokenType × Span) × ParserState :=
  let (nxt, rest) := lexerNext s.lexer
  ((s.curr.token, s.curr.span), ⟨rest, s.curr, nxt⟩)

/-- The artificial fuel-exhaustion error of the embedding. -/
def fuelErr : ErrorInfo := ⟨Error.Fuel, ⟨0, 0, 0⟩⟩

/-- `Parser::should_be`: consume the current token; if its tag is the
expected one return its span, otherwise a syntax error at its span. -/
def Parser.should_be (ty : TokenType) (s : ParserState) : Except ErrorInfo (Span × ParserState) :=
  let ((val, span), s') := Parser.advance s
  if val = ty then
    .ok (span, s')
  else
    .error ⟨Error.SyntaxError
      ("Expected: \"" ++ displayTok ty ++ "\" Found: \"" ++ displayTok s'.curr.token ++ "\""), span⟩

/-- `Parser::get_identifier`: consume the current token; if it is an
identifier return its name and span, otherwise a syntax error at its span. -/
def Parser.get_identifier (s : ParserState) : Except ErrorInfo ((String × Span) × ParserState) :=
  let ((val, span), s') := Parser.advance s
  match val with
  | .Identifier name => .ok ((name, span), s')
  | _ => .error ⟨Error.SyntaxError
      ("Expected: \"Identifier\" Found: \"" ++ displayTok val ++ "\""), span⟩

/-- Loop of `Parser::function_declaration`: `while self.curr.is(Comma)`
collect further parameters. -/
def params_loop : Nat → ParserState → Except ErrorInfo (List String × ParserState)
  | fuel, s =>
    if s.curr.is .Comma then
      match fuel with
      | 0 => .error fuelErr
      | n + 1 => do
        let (_, s) := Parser.advance s
        let ((param, _), s) ← Parser.get_identifier s
        let (rest, s) ← params_loop n s
        pure (param :: rest, s)
    else
      pure ([], s)

/-- The optional-superclass block of `Parser::class_declaration` (lines
65-75): on `<`, consume it, demand an identifier, reject a class
inheriting from itself (error at the superclass identifier's span), else
record the superclass name. -/
def class_super (name : String) (s : ParserState) :
    Except ErrorInfo (Option String × ParserState) :=
  if s.curr.is .Lt then do
    let (_, s) := Parser.advance s
    let ((super_class_name, span2), s) ← Parser.get_identifier s
    if name = super_class_name then
      .error ⟨Error.Parse "Cannot inherit from itself", span2⟩
    else
      pure ((some super_class_name : Option String), s)
  else
    pure ((none : Option String), s)

/-- The parameter-list block of `Parser::function_declaration` (lines
93-102): empty unless the current token differs from `)`, in which case
one identifier is demanded and further comma-led identifiers collected. -/
def function_params (n : Nat) (s : ParserState) :
    Except ErrorInfo (List String × ParserState) :=
  if !(s.curr.is .RParen) then do
    let ((param, _), s) ← Parser.get_identifier s
    let (rest, s) ← params_loop n s
    pure (param :: rest, s)
  else
    pure (([] : List String), s)

mutual

/-- `Parser::declaration` (src/parser/mod.rs lines 33-43).  Note that the
`Class` arm calls `class_declaration` without consuming the `class`
keyword, while the `Function` arm advances first and `let_declaration`
advances internally. -/
def declaration : Nat → ParserState → Except ErrorInfo (Stmt × ParserState)
  | 0, _ => .error fuelErr
  | n + 1, s =>
    match s.curr.token with
    | .Let | .Const => let_declaration n s
    | .Class => class_declaration n s
    | .Function =>
      let (_, s) := Parser.advance s
      function_declaration n s
    | _ => statement n s

/-- `Parser::let_declaration` (lines 45-61). -/
def let_declaration : Nat → ParserState → Except ErrorInfo (Stmt × ParserState)
  | 0, _ => .error fuelErr
  | n + 1, s => do
    let is_const := s.curr.is .Const
    let (_, s) := Parser.advance s
    let ((name, span), s) ← Parser.get_identifier s
    let (value, s) ← let_value n s
    let (_, s) ← Parser.should_be .Semicolon s
    pure (Stmt.Let name value is_const span, s)

/-- The optional-initializer block of `Parser::let_declaration` (lines
49-53): `value` stays `None` unless the current token is `=`, in which
case the `=` is consumed and an expression parsed. -/
def let_value : Nat → ParserState → Except ErrorInfo (Option Expr × ParserState)
  | 0, _ => .error fuelErr
  | n + 1, s =>
    if s.curr.is .Assign then do
      let (_, s) := Parser.advance s
      let (v, s) ← expression n s
      pure ((some v : Option Expr), s)
    else
      pure ((none : Option Expr), s)

/-- `Parser::class_declaration` (lines 63-88).  The error for a class
inheriting from itself carries the superclass identifier's span (the inner
shadowing `span`); the `Class` node carries the class name's span. -/
def class_declaration : Nat → ParserState → Except ErrorInfo (Stmt × ParserState)
  | 0, _ => .error fuelErr
  | n + 1, s => do
    let ((name, span), s) ← Parser.get_identifier s
    let (super_class, s) ← class_super name s
    let (_, s) ← Parser.should_be .LBrace s
    let (methods, s) ← class_methods_loop n s
    let (_, s) ← Parser.should_be .RBrace s
    pure (Stmt.Class name super_class methods span, s)

/-- Loop of `Parser::class_declaration`:
`while !curr.is(RBrace) && !curr.is(Eof)` collect method declarations. -/
def class_methods_loop : Nat → ParserState → Except ErrorInfo (List Stmt × ParserState)
  | fuel, s =>
    if !(s.curr.is .RBrace) && !(s.curr.is .Eof) then
      match fuel with
      | 0 => .error fuelErr
      | n + 1 => do
        let (m, s) ← function_declaration n s
        let (ms, s) ← class_methods_loop n s
        pure (m :: ms, s)
    else
      pure ([], s)

/-- `Parser::function_declaration` (lines 90-111). -/
def function_declaration : Nat → ParserState → Except ErrorInfo (Stmt × ParserState)
  | 0, _ => .error fuelErr
  | n + 1, s => do
    let ((name, span), s) ← Parser.get_identifier s
    let (_, s) ← Parser.should_be .LParen s
    let (params, s) ← function_params n s
    let (_, s) ← Parser.should_be .RParen s
    let (body, s) ← block_statement n s
    pure (Stmt.Function name params body span, s)

/-- `Parser::statement` (lines 113-123). -/
def statement : Nat → ParserState → Except ErrorInfo (Stmt × ParserState)
  | 0, _ => .error fuelErr
  | n + 1, s =>
    match s.curr.token with
    | .Print => print_statement n s
    | .If => if_statement n s
    | .While => while_statement n s
    | .For => for_statement n s
    | .Return => return_statement n s
    | .LCurly => block_statement n s
    | _ => expression_statement n s

/-- `Parser::expression_statement` (lines 125-130): the node's span is the
span of the first token of the expression. -/
def expression_statement : Nat → ParserState → Except ErrorInfo (Stmt × ParserState)
  | 0, _ => .error fuelErr
  | n + 1, s => do
    let span := s.curr.span
    let (expr, s) ← expression n s
    let (_, s) ← Parser.should_be .Semicolon s
    pure (Stmt.Expr expr span, s)

/-- `Parser::print_statement` (lines 132-137). -/
def print_statement : Nat → ParserState → Except ErrorInfo (Stmt × ParserState)
  | 0, _ => .error fuelErr
  | n + 1, s => do
    let ((_, span), s) := Parser.advance s
    let (expr, s) ← expression n s
    let (_, s) ← Parser.should_be .Semicolon s
    pure (Stmt.Print expr span, s)

/-- `Parser::return_statement` (lines 139-147). -/
def return_statement : Nat → ParserState → Except ErrorInfo (Stmt × ParserState)
  | 0, _ => .error fuelErr
  | n + 1, s => do
    let ((_, span), s) := Parser.advance s
    let (value, s) ← return_value n s
    let (_, s) ← Parser.should_be .Semicolon s
    pure (Stmt.Return value span, s)

/-- The optional-value block of `Parser::return_statement` (lines
141-144): `value` stays `None` when the current token is `;`, otherwise
an expression is parsed. -/
def return_value : Nat → ParserState → Except ErrorInfo (Option Expr × ParserState)
  | 0, _ => .error fuelErr
  | n + 1, s =>
    if !(s.curr.is .Semicolon) then do
      let (v, s) ← expression n s
      pure ((some v : Option Expr), s)
    else
      pure ((none : Option Expr), s)

/-- `Parser::for_statement` (lines 149-179). -/
def for_statement : Nat → ParserState → Except ErrorInfo (Stmt × ParserState)
  | 0, _ => .error fuelErr
  | n + 1, s => do
    let ((_, span), s) := Parser.advance s
    let (_, s) ← Parser.should_be .LParen s
    let (initializer, s) ← for_initializer n s
    let (condition, s) ← for_condition n s
    let (_, s) ← Parser.should_be .Semicolon s
    let (increment, s) ← for_increment n s
    let (_, s) ← Parser.should_be .RParen s
    let (body, s) ← statement n s
    pure (Stmt.For initializer condition increment body span, s)

/-- The initializer match of `Parser::for_statement` (lines 152-156):
nothing on `;`, a let declaration on `let`, otherwise an expression
statement. -/
def for_initializer : Nat → ParserState → Except ErrorInfo (Option Stmt × ParserState)
  | 0, _ => .error fuelErr
  | n + 1, s =>
    match s.curr.token with
    | .Semicolon => pure ((none : Option Stmt), s)
    | .Let => do
      let (st, s) ← let_declaration n s
      pure (some st, s)
    | _ => do
      let (st, s) ← expression_statement n s
      pure (some st, s)

/-- The condition match of `Parser::for_statement` (lines 158-161):
nothing on `;`, otherwise an expression. -/
def for_condition : Nat → ParserState → Except ErrorInfo (Option Expr × ParserState)
  | 0, _ => .error fuelErr
  | n + 1, s =>
    match s.curr.token with
    | .Semicolon => pure ((none : Option Expr), s)
    | _ => do
      let (e, s) ← expression n s
      pure (some e, s)

/-- The increment match of `Parser::for_statement` (lines 164-167):
nothing on `)`, otherwise an expression. -/
def for_increment : Nat → ParserState → Except ErrorInfo (Option Expr × ParserState)
  | 0, _ => .error fuelErr
  | n + 1, s =>
    match s.curr.token with
    | .RParen => pure ((none : Option Expr), s)
    | _ => do
      let (e, s) ← expression n s
      pure (some e, s)

/-- `Parser::if_statement` (lines 181-198). -/
def if_statement : Nat → ParserState → Except ErrorInfo (Stmt × ParserState)
  | 0, _ => .error fuelErr
  | n + 1, s => do
    let ((_, span), s) := Parser.advance s
    let (_, s) ← Parser.should_be .LParen s
    let (condition, s) ← expression n s
    let (_, s) ← Parser.should_be .RParen s
    let (truthy, s) ← statement n s
    let (falsy, s) ← if_falsy n s
    pure (Stmt.If condition truthy falsy span, s)

/-- The optional-else block of `Parser::if_statement` (lines 187-191):
`falsy` stays `None` unless the current token is `else`, in which case
the `else` is consumed and a statement parsed. -/
def if_falsy : Nat → ParserState → Except ErrorInfo (Option Stmt × ParserState)
  | 0, _ => .error fuelErr
  | n + 1, s =>
    if s.curr.is .Else then do
      let (_, s) := Parser.advance s
      let (st, s) ← statement n s
      pure ((some st : Option Stmt), s)
    else
      pure ((none : Option Stmt), s)

/-- `Parser::while_statement` (lines 200-211). -/
def while_statement : Nat → ParserState → Except ErrorInfo (Stmt × ParserState)
  | 0, _ => .error fuelErr
  | n + 1, s => do
    let ((_, span), s) := Parser.advance s
    let (_, s) ← Parser.should_be .LParen s
    let (condition, s) ← expression n s
    let (_, s) ← Parser.should_be .RParen s
    let (body, s) ← statement n s
    pure (Stmt.While condition body span, s)

/-- `Parser::block_statement` (lines 213-221). -/
def block_statement : Nat → ParserState → Except ErrorInfo (Stmt × ParserState)
  | 0, _ => .error fuelErr
  | n + 1, s => do
    let (span, s) ← Parser.should_be .LCurly s
    let (stmts, s) ← block_loop n s
    let (_, s) ← Parser.should_be .RCurly s
    pure (Stmt.Block stmts span, s)

/-- Loop of `Parser::block_statement`:
`while !curr.is(RCurly) && !curr.is(Eof)` collect declarations. -/
def block_loop : Nat → ParserState → Except ErrorInfo (List Stmt × ParserState)
  | fuel, s =>
    if !(s.curr.is .RCurly) && !(s.curr.is .Eof) then
      match fuel with
      | 0 => .error fuelErr
      | n + 1 => do
        let (st, s) ← declaration n s
        let (rest, s) ← block_loop n s
        pure (st :: rest, s)
    else
      pure ([], s)

/-- Loop of `Parser::parse_program`: `while !curr.is(Eof)` collect
top-level declarations. -/
def program_loop : Nat → ParserState → Except ErrorInfo (List Stmt × ParserState)
  | fuel, s =>
    if !(s.curr.is .Eof) then
      match fuel with
      | 0 => .error fuelErr
      | n + 1 => do
        let (st, s) ← declaration n s
        let (rest, s) ← program_loop n s
        pure (st :: rest, s)
    else
      pure ([], s)

/-- `Parser::expression` (lines 225-227). -/
def expression : Nat → ParserState → Except ErrorInfo (Expr × ParserState)
  | 0, _ => .error fuelErr
  | n + 1, s => assignment n s

/-- `Parser::assignment` (lines 229-263): parse at the `or` level; if the
current token is an assignment-family operator, parse the right side at
the `or` level and reinterpret the left side — a `Variable` becomes an
`Assign` (keeping the variable's span), a `Get` becomes a `Set` (keeping
the `Get`'s span), anything else is the invalid-assignment-target parse
error at the operator's span. -/
def assignment : Nat → ParserState → Except ErrorInfo (Expr × ParserState)
  | 0, _ => .error fuelErr
  | n + 1, s => do
    let (left, s) ← orExpr n s
    match s.curr.token with
    | .Assign | .PlusEq | .SubEq | .ModEq | .DivEq | .AndEq | .OrEq | .MulEq | .XorEq => do
      let ((_, span), s) := Parser.advance s
      let (right, s) ← orExpr n s
      match left with
      | Expr.Variable name vspan => pure (Expr.Assign name right vspan, s)
      | Expr.Get object name gspan => pure (Expr.Set object name right gspan, s)
      | _ => .error ⟨Error.Parse "Invalid assignment target", span⟩
    | _ => pure (left, s)

/-- `Parser::or` (lines 265-278). -/
def orExpr : Nat → ParserState → Except ErrorInfo (Expr × ParserState)
  | 0, _ => .error fuelErr
  | n + 1, s => do
    let (left, s) ← andExpr n s
    or_loop n left s

/-- Loop of `Parser::or`: `while curr.is(Or)` fold `Logical` nodes to the
left. -/
def or_loop : Nat → Expr → ParserState → Except ErrorInfo (Expr × ParserState)
  | fuel, left, s =>
    if s.curr.is .Or then
      match fuel with
      | 0 => .error fuelErr
      | n + 1 => do
        let ((op, span), s) := Parser.advance s
        let (right, s) ← andExpr n s
        or_loop n (Expr.Logical left op right span) s
    else
      pure (left, s)

/-- `Parser::and` (lines 280-293). -/
def andExpr : Nat → ParserState → Except ErrorInfo (Expr × ParserState)
  | 0, _ => .error fuelErr
  | n + 1, s => do
    let (left, s) ← equality n s
    and_loop n left s

/-- Loop of `Parser::and`: `while curr.is(LAnd)` fold `Logical` nodes to
the left. -/
def and_loop : Nat → Expr → ParserState → Except ErrorInfo (Expr × ParserState)
  | fuel, left, s =>
    if s.curr.is .LAnd then
      match fuel with
      | 0 => .error fuelErr
      | n + 1 => do
        let ((op, span), s) := Parser.advance s
        let (right, s) ← equality n s
        and_loop n (Expr.Logical left op right span) s
    else
      pure (left, s)

/-- `Parser::equality` (lines 295-308). -/
def equality : Nat → ParserState → Except ErrorInfo (Expr × ParserState)
  | 0, _ => .error fuelErr
  | n + 1, s => do
    let (left, s) ← comparison n s
    equality_loop n left s

/-- Loop of `Parser::equality`: on `==` or `!=` fold `Logical` nodes to
the left. -/
def equality_loop : Nat → Expr → ParserState → Except ErrorInfo (Expr × ParserState)
  | fuel, left, s =>
    match s.curr.token with
    | .Eq | .Ne =>
      (match fuel with
      | 0 => .error fuelErr
      | n + 1 => do
        let ((op, span), s) := Parser.advance s
        let (right, s) ← comparison n s
        equality_loop n (Expr.Logical left op right span) s)
    | _ => pure (left, s)

/-- `Parser::comparison` (lines 310-324). -/
def comparison : Nat → ParserState → Except ErrorInfo (Expr × ParserState)
  | 0, _ => .error fuelErr
  | n + 1, s => do
    let (left, s) ← term n s
    comparison_loop n left s

/-- Loop of `Parser::comparison`: on `>`, `>=`, `<`, `<=` fold `Logical`
nodes to the left. -/
def comparison_loop : Nat → Expr → ParserState → Except ErrorInfo (Expr × ParserState)
  | fuel, left, s =>
    match s.curr.token with
    | .Gt | .Gte | .Lt | .Lte =>
      (match fuel with
      | 0 => .error fuelErr
      | n + 1 => do
        let ((op, span), s) := Parser.advance s
        let (right, s) ← term n s
        comparison_loop n (Expr.Logical left op right span) s)
    | _ => pure (left, s)

/-- `Parser::term` (lines 326-344). -/
def term : Nat → ParserState → Except ErrorInfo (Expr × ParserState)
  | 0, _ => .error fuelErr
  | n + 1, s => do
    let (left, s) ← factor n s
    term_loop n left s

/-- Loop of `Parser::term`: on `+`, `-`, bitwise or/and/xor fold `Binary`
nodes to the left. -/
def term_loop : Nat → Expr → ParserState → Except ErrorInfo (Expr × ParserState)
  | fuel, left, s =>
    match s.curr.token with
    | .Plus | .Minus | .Or | .And | .Xor =>
      (match fuel with
      | 0 => .error fuelErr
      | n + 1 => do
        let ((op, span), s) := Parser.advance s
        let (right, s) ← factor n s
        term_loop n (Expr.Binary left op right span) s)
    | _ => pure (left, s)

/-- `Parser::factor` (lines 346-359). -/
def factor : Nat → ParserState → Except ErrorInfo (Expr × ParserState)
  | 0, _ => .error fuelErr
  | n + 1, s => do
    let (left, s) ← unary n s
    factor_loop n left s

/-- Loop of `Parser::factor`: on `*`, `/` fold `Binary` nodes to the
left. -/
def factor_loop : Nat → Expr → ParserState → Except ErrorInfo (Expr × ParserState)
  | fuel, left, s =>
    match s.curr.token with
    | .Times | .Divide =>
      (match fuel with
      | 0 => .error fuelErr
      | n + 1 => do
        let ((op, span), s) := Parser.advance s
        let (right, s) ← unary n s
        factor_loop n (Expr.Binary left op right span) s)
    | _ => pure (left, s)

/-- `Parser::unary` (lines 361-373). -/
def unary : Nat → ParserState → Except ErrorInfo (Expr × ParserState)
  | 0, _ => .error fuelErr
  | n + 1, s =>
    match s.curr.token with
    | .Minus | .Not | .Plus => do
      let ((op, span), s) := Parser.advance s
      let (right, s) ← unary n s
      pure (Expr.Unary op right span, s)
    | _ => call n s

/-- `Parser::call` (lines 375-405). -/
def call : Nat → ParserState → Except ErrorInfo (Expr × ParserState)
  | 0, _ => .error fuelErr
  | n + 1, s => do
    let (expr, s) ← primary n s
    call_loop n expr s

/-- The postfix loop of `Parser::call`.  The `LParen` arm mirrors the
source exactly: it consumes the `(` and the comma-separated argument
expressions, but it neither consumes the closing `)` nor builds any
`Call` node — the argument list is dropped and the running expression is
left unchanged (src/parser/mod.rs lines 379-391).  The `Dot` arm wraps
the running expression in a `Get`. -/
def call_loop : Nat → Expr → ParserState → Except ErrorInfo (Expr × ParserState)
  | fuel, expr, s =>
    match s.curr.token with
    | .LParen =>
      (match fuel with
      | 0 => .error fuelErr
      | n + 1 => do
        let (_, s) := Parser.advance s
        let (_args, s) ←
          if !(s.curr.is .RParen) then args_loop n s
          else pure (([] : List Expr), s)
        call_loop n expr s)
    | .Dot =>
      (match fuel with
      | 0 => .error fuelErr
      | n + 1 => do
        let (_, s) := Parser.advance s
        let ((name, span), s) ← Parser.get_identifier s
        call_loop n (Expr.Get expr name span) s)
    | _ => pure (expr, s)

/-- Argument loop of `Parser::call`: a do-while — parse an expression,
then continue as long as the current token is a comma (consuming it). -/
def args_loop : Nat → ParserState → Except ErrorInfo (List Expr × ParserState)
  | 0, _ => .error fuelErr
  | n + 1, s => do
    let (a, s) ← expression n s
    if s.curr.is .Comma then do
      let (_, s) := Parser.advance s
      let (rest, s) ← args_loop n s
      pure (a :: rest, s)
    else
      pure ([a], s)

/-- `Parser::primary` (lines 407-455).  Note the `Super` arm calls
`should_be(Dot)` without first consuming the `super` token, and the
`This` arm returns without consuming the `this` token. -/
def primary : Nat → ParserState → Except ErrorInfo (Expr × ParserState)
  | 0, _ => .error fuelErr
  | n + 1, s =>
    let tok := s.curr
    let span := tok.span
    match tok.token with
    | .True =>
      let (_, s) := Parser.advance s
      .ok (Expr.Literal (LiteralType.Boolean true) span, s)
    | .False =>
      let (_, s) := Parser.advance s
      .ok (Expr.Literal (LiteralType.Boolean false) span, s)
    | .Number x =>
      let (_, s) := Parser.advance s
      .ok (Expr.Literal (LiteralType.Number x) span, s)
    | .String x =>
      let (_, s) := Parser.advance s
      .ok (Expr.Literal (LiteralType.String x) span, s)
    | .Identifier name =>
      let (_, s) := Parser.advance s
      .ok (Expr.Variable name span, s)
    | .LParen => do
      let (_, s) := Parser.advance s
      let (e, s) ← expression n s
      let (_, s) ← Parser.should_be .RParen s
      pure (Expr.Grouping e span, s)
    | .Super => do
      let (_, s) ← Parser.should_be .Dot s
      let ((name, span2), s) ← Parser.get_identifier s
      pure (Expr.Super name span2, s)
    | .This => .ok (Expr.Variable "this" span, s)
    | _ => .error ⟨Error.Parse "Expect expression.", span⟩

end

/-- `Parser::parse_program` (lines 24-31): collect top-level declarations
until the end-of-input sentinel. -/
def parse_program (fuel : Nat) (s : ParserState) : Except ErrorInfo Program := do
  let (stmts, _) ← program_loop fuel s
  pure ⟨stmts⟩

/-- Run the parser on a token stream, as `Parser::new` followed by
`parse_program`. -/
def parseTokens (fuel : Nat) (ts : List TokenInfo) : Except ErrorInfo Program :=
  parse_program fuel (Parser.new ts)

mutual

/-- No `Break` or `Continue` node occurs anywhere in the statement. -/
def Stmt.noBreakContinue : Stmt → Bool
  | .Break _ => false
  | .Continue _ => false
  | .Expr _ _ => true
  | .Print _ _ => true
  | .Block stmts _ => noBCList stmts
  | .Let _ _ _ _ => true
  | .If _ truthy falsy _ => truthy.noBreakContinue && noBCOpt falsy
  | .While _ body _ => body.noBreakContinue
  | .For initializer _ _ body _ => noBCOpt initializer && body.noBreakContinue
  | .Function _ _ body _ => body.noBreakContinue
  | .Return _ _ => true
  | .Class _ _ methods _ => noBCList methods

/-- `Stmt.noBreakContinue` on an optional statement. -/
def noBCOpt : Option Stmt → Bool
  | none => true
  | some st => st.noBreakContinue

/-- `Stmt.noBreakContinue` on every statement of a list. -/
def noBCList : List Stmt → Bool
  | [] => true
  | st :: rest => st.noBreakContinue && noBCList rest

end

/-- A statement-producing parse result only ever yields Break/Continue-free
statements. -/
def StOk (r : Except ErrorInfo (Stmt × ParserState)) : Prop :=
  ∀ st s', r = .ok (st, s') → st.noBreakContinue = true

/-- An optional-statement parse result only ever yields Break/Continue-free
statements. -/
def OOk (r : Except ErrorInfo (Option Stmt × ParserState)) : Prop :=
  ∀ o s', r = .ok (o, s') → noBCOpt o = true

/-- A statement-list parse result only ever yields Break/Continue-free
statements. -/
def LOk (r : Except ErrorInfo (List Stmt × ParserState)) : Prop :=
  ∀ l s', r = .ok (l, s') → noBCList l = true

/-- Claim C1: the claim states that after a primary, a `(` token makes the
parser attach the parsed argument list to a `Call` node whose callee is the
running expression, so that `f ( a , b ) ;` yields an expression statement
containing that `Call`.  The code instead drops the parsed arguments, never
reassigns the running expression, and never consumes the closing `)`: the
whole parse fails with a syntax error at the `)` token's span, and at the
call level the running expression is still `Variable f` with the `)` still
current.  This theorem evaluates the code on the claim's token stream. -/
theorem c1_call_args_discarded (f a b : String) (σ1 σ2 σ3 σ4 σ5 σ6 σ7 : Span) :
    (∃ msg, parseTokens 50 [⟨.Identifier f, σ1⟩, ⟨.LParen, σ2⟩, ⟨.Identifier a, σ3⟩,
        ⟨.Comma, σ4⟩, ⟨.Identifier b, σ5⟩, ⟨.RParen, σ6⟩, ⟨.Semicolon, σ7⟩] =
      .error ⟨Error.SyntaxError msg, σ6⟩) ∧
    call 50 (Parser.new [⟨.Identifier f, σ1⟩, ⟨.LParen, σ2⟩, ⟨.Identifier a, σ3⟩,
        ⟨.Comma, σ4⟩, ⟨.Identifier b, σ5⟩, ⟨.RParen, σ6⟩, ⟨.Semicolon, σ7⟩]) =
      .ok (Expr.Variable f σ1,
        ⟨[⟨.Semicolon, σ7⟩], ⟨.Identifier b, σ5⟩, ⟨.RParen, σ6⟩⟩) :=
  ⟨⟨_, rfl⟩, rfl⟩

/-- Claim C2: the claim states that `class A < B { m ( ) { } }` parses to a
`Class` statement with superclass `some B` and one method.  In the code,
the `Class` arm of `declaration` enters `class_declaration` without
consuming the `class` keyword, and `class_declaration` immediately demands
an identifier, so the `class` keyword itself is consumed by
`get_identifier` and every class declaration fails with an
expected-identifier syntax error at the keyword's span (first conjunct,
for arbitrary class and superclass names).  Started instead from the state
in which the keyword has already been consumed, `class_declaration`
produces exactly the statement the claim describes (second conjunct). -/
theorem c2_class_keyword_never_consumed (A B : String) (σ0 σ1 σ2 σ3 σ4 σ5 σ6 σ7 σ8 σ9 σ10 : Span) :
    (∃ msg, parseTokens 50 [⟨.Class, σ0⟩, ⟨.Identifier A, σ1⟩, ⟨.Lt, σ2⟩, ⟨.Identifier B, σ3⟩,
        ⟨.LBrace, σ4⟩, ⟨.Identifier "m", σ5⟩, ⟨.LParen, σ6⟩, ⟨.RParen, σ7⟩,
        ⟨.LCurly, σ8⟩, ⟨.RCurly, σ9⟩, ⟨.RBrace, σ10⟩] =
      .error ⟨Error.SyntaxError msg, σ0⟩) ∧
    class_declaration 50 (Parser.new [⟨.Identifier "A", σ1⟩, ⟨.Lt, σ2⟩, ⟨.Identifier "B", σ3⟩,
        ⟨.LBrace, σ4⟩, ⟨.Identifier "m", σ5⟩, ⟨.LParen, σ6⟩, ⟨.RParen, σ7⟩,
        ⟨.LCurly, σ8⟩, ⟨.RCurly, σ9⟩, ⟨.RBrace, σ10⟩]) =
      .ok (Stmt.Class "A" (some "B") [Stmt.Function "m" [] (Stmt.Block [] σ8) σ5] σ1,
        ⟨[], ⟨.RBrace, σ10⟩, eofTok⟩) :=
  ⟨⟨_, rfl⟩, rfl⟩

/-- Claim C3: the claim states that `class A < A { }` fails with the
self-inheriting-class parse error at the superclass identifier's span.
Because `class_declaration` is entered without the `class` keyword having
been consumed, the parse instead fails with an expected-identifier syntax
error at the keyword's span, and the self-inheritance check is unreachable
from `parse_program` (first conjunct).  The check itself, run from the
state in which the keyword has already been consumed, does produce the
self-inheriting-class error with exactly the superclass identifier's span
(second conjunct). -/
theorem c3_self_inherit_error_unreachable (A : String) (σ0 σ1 σ2 σ3 σ4 σ5 : Span) :
    (∃ msg, parseTokens 50 [⟨.Class, σ0⟩, ⟨.Identifier A, σ1⟩, ⟨.Lt, σ2⟩, ⟨.Identifier A, σ3⟩,
        ⟨.LBrace, σ4⟩, ⟨.RBrace, σ5⟩] =
      .error ⟨Error.SyntaxError msg, σ0⟩) ∧
    class_declaration 50 (Parser.new [⟨.Identifier "A", σ1⟩, ⟨.Lt, σ2⟩, ⟨.Identifier "A", σ3⟩,
        ⟨.LBrace, σ4⟩, ⟨.RBrace, σ5⟩]) =
      .error ⟨Error.Parse "Cannot inherit from itself", σ3⟩ :=
  ⟨⟨_, rfl⟩, rfl⟩

/-- Claim C4: the claim states that `super . x ;` parses to an expression
statement whose expression is `Super` with member name `x`.  In the code,
the `Super` arm of `primary` calls `should_be(Dot)` without first
consuming the `super` token, so `should_be` consumes the `super` token
itself, the tag comparison with `.` fails, and the whole parse fails with
a syntax error at the `super` token's span. -/
theorem c4_super_never_parses (x : String) (σ0 σ1 σ2 σ3 : Span) :
    ∃ msg, parseTokens 50 [⟨.Super, σ0⟩, ⟨.Dot, σ1⟩, ⟨.Identifier x, σ2⟩, ⟨.Semicolon, σ3⟩] =
      .error ⟨Error.SyntaxError msg, σ0⟩ :=
  ⟨_, rfl⟩

/-- Claim C5: the claim states that a `this` token in primary position
parses to `Variable "this"` and is consumed, so that `this ;` succeeds.
In the code, the `This` arm of `primary` does build `Variable "this"` but
returns without advancing, leaving the parser state completely unchanged
(first conjunct: the returned state is the input state itself), so the
still-current `this` token is later consumed by `should_be(Semicolon)`
and the whole parse of `this ;` fails with a syntax error at the `this`
token's span (second conjunct). -/
theorem c5_this_never_consumed (σ0 σ1 : Span) :
    primary 50 (Parser.new [⟨.This, σ0⟩, ⟨.Semicolon, σ1⟩]) =
      .ok (Expr.Variable "this" σ0, Parser.new [⟨.This, σ0⟩, ⟨.Semicolon, σ1⟩]) ∧
    (∃ msg, parseTokens 50 [⟨.This, σ0⟩, ⟨.Semicolon, σ1⟩] =
      .error ⟨Error.SyntaxError msg, σ0⟩) :=
  ⟨rfl, ⟨_, rfl⟩⟩

/-- Claim C6: for every assignment-family operator, a left-hand side that
is neither a `Variable` nor a `Get` (here: the literal `1`) fails with the
invalid-assignment-target parse error at the operator token's span; a
`Variable` left-hand side yields an `Assign` node; a `Get` left-hand side
yields a `Set` node. -/
theorem c6_assignment_target_resolution (op : TokenType)
    (hop : op ∈ [TokenType.Assign, TokenType.PlusEq, TokenType.SubEq, TokenType.ModEq,
      TokenType.DivEq, TokenType.AndEq, TokenType.OrEq, TokenType.MulEq, TokenType.XorEq]) :
    (∀ σ1 σ2 σ3 σ4 : Span,
      parseTokens 50 [⟨.Number 1, σ1⟩, ⟨op, σ2⟩, ⟨.Number 2, σ3⟩, ⟨.Semicolon, σ4⟩] =
        .error ⟨Error.Parse "Invalid assignment target", σ2⟩) ∧
    (∀ (x : String) (σ1 σ2 σ3 σ4 : Span),
      parseTokens 50 [⟨.Identifier x, σ1⟩, ⟨op, σ2⟩, ⟨.Number 2, σ3⟩, ⟨.Semicolon, σ4⟩] =
        .ok ⟨[Stmt.Expr (Expr.Assign x (Expr.Literal (LiteralType.Number 2) σ3) σ1) σ1]⟩) ∧
    (∀ (x y : String) (σ1 σ2 σ3 σ4 σ5 σ6 : Span),
      parseTokens 50 [⟨.Identifier x, σ1⟩, ⟨.Dot, σ2⟩, ⟨.Identifier y, σ3⟩,
          ⟨op, σ4⟩, ⟨.Number 2, σ5⟩, ⟨.Semicolon, σ6⟩] =
        .ok ⟨[Stmt.Expr
          (Expr.Set (Expr.Variable x σ1) y (Expr.Literal (LiteralType.Number 2) σ5) σ3) σ1]⟩) := by
  simp only [List.mem_cons, List.not_mem_nil, or_false] at hop
  rcases hop with rfl | rfl | rfl | rfl | rfl | rfl | rfl | rfl | rfl <;>
    exact ⟨fun _ _ _ _ => rfl, fun _ _ _ _ _ => rfl, fun _ _ _ _ _ _ _ _ => rfl⟩

/-- Claim C6 witness: the theorem applied at the concrete operator `=`,
with the membership hypothesis discharged by computation. -/
theorem c6_assignment_target_resolution_witness :
    parseTokens 50 [⟨.Number 1, ⟨0, 1, 1⟩⟩, ⟨.Assign, ⟨1, 1, 1⟩⟩,
        ⟨.Number 2, ⟨2, 1, 1⟩⟩, ⟨.Semicolon, ⟨3, 1, 1⟩⟩] =
      .error ⟨Error.Parse "Invalid assignment target", ⟨1, 1, 1⟩⟩ :=
  (c6_assignment_target_resolution TokenType.Assign (by decide)).1
    ⟨0, 1, 1⟩ ⟨1, 1, 1⟩ ⟨2, 1, 1⟩ ⟨3, 1, 1⟩

/-- Claim C7: operator chains at a single precedence level fold
left-associatively, at every binary/logical level of the precedence
ladder.  First conjunct: for each of the seven operator tokens consumed
by the `Binary`-building loops (`+`, `-`, bitwise or/and/xor at the term
level — the term loop also captures the `or` token — and `*`, `/` at the
factor level), the stream `a op b op c ;` parses to
`Binary (Binary a op b) op c`, for all names and spans.  Second conjunct:
for each of the seven operator tokens consumed by the `Logical`-building
loops (`and` at the and level, `==`/`!=` at the equality level,
`>`/`>=`/`<`/`<=` at the comparison level), the same stream parses to
`Logical (Logical a op b) op c`.  Third conjunct: the claim's own `-`
example is provably not the right-nested tree.  Fourth conjunct: the
or-level loop also attaches the running expression as the left operand of
the `Logical` node it builds, shown by running `or_loop` directly on a
state whose current token is `or` (because the term loop consumes every
`or` token first, no token stream reaching `or_loop` through the ladder
can make it iterate). -/
theorem c7_chains_left_associative :
    (∀ op ∈ [TokenType.Plus, TokenType.Minus, TokenType.Or, TokenType.And,
        TokenType.Xor, TokenType.Times, TokenType.Divide],
      ∀ (a b c : String) (σ1 σ2 σ3 σ4 σ5 σ6 : Span),
      parseTokens 50 [⟨.Identifier a, σ1⟩, ⟨op, σ2⟩, ⟨.Identifier b, σ3⟩,
          ⟨op, σ4⟩, ⟨.Identifier c, σ5⟩, ⟨.Semicolon, σ6⟩] =
        .ok ⟨[Stmt.Expr
          (Expr.Binary (Expr.Binary (Expr.Variable a σ1) op (Expr.Variable b σ3) σ2)
            op (Expr.Variable c σ5) σ4) σ1]⟩) ∧
    (∀ op ∈ [TokenType.LAnd, TokenType.Eq, TokenType.Ne, TokenType.Gt,
        TokenType.Gte, TokenType.Lt, TokenType.Lte],
      ∀ (a b c : String) (σ1 σ2 σ3 σ4 σ5 σ6 : Span),
      parseTokens 50 [⟨.Identifier a, σ1⟩, ⟨op, σ2⟩, ⟨.Identifier b, σ3⟩,
          ⟨op, σ4⟩, ⟨.Identifier c, σ5⟩, ⟨.Semicolon, σ6⟩] =
        .ok ⟨[Stmt.Expr
          (Expr.Logical (Expr.Logical (Expr.Variable a σ1) op (Expr.Variable b σ3) σ2)
            op (Expr.Variable c σ5) σ4) σ1]⟩) ∧
    (∀ (a b c : String) (σ1 σ2 σ3 σ4 σ5 σ6 : Span),
      parseTokens 50 [⟨.Identifier a, σ1⟩, ⟨.Minus, σ2⟩, ⟨.Identifier b, σ3⟩,
          ⟨.Minus, σ4⟩, ⟨.Identifier c, σ5⟩, ⟨.Semicolon, σ6⟩] ≠
        .ok ⟨[Stmt.Expr
          (Expr.Binary (Expr.Variable a σ1) .Minus
            (Expr.Binary (Expr.Variable b σ3) .Minus (Expr.Variable c σ5) σ4) σ2) σ1]⟩) ∧
    (∀ (a b : String) (σ0 σ2 σ3 σ4 : Span),
      or_loop 50 (Expr.Variable a σ0)
          (Parser.new [⟨.Or, σ2⟩, ⟨.Identifier b, σ3⟩, ⟨.Semicolon, σ4⟩]) =
        .ok (Expr.Logical (Expr.Variable a σ0) .Or (Expr.Variable b σ3) σ2,
          ⟨[], ⟨.Identifier b, σ3⟩, ⟨.Semicolon, σ4⟩⟩)) := by
  refine ⟨?_, ?_, ?_, ?_⟩
  · intro op hop
    simp only [List.mem_cons, List.not_mem_nil, or_false] at hop
    rcases hop with rfl | rfl | rfl | rfl | rfl | rfl | rfl <;>
      exact fun a b c σ1 σ2 σ3 σ4 σ5 σ6 => rfl
  · intro op hop
    simp only [List.mem_cons, List.not_mem_nil, or_false] at hop
    rcases hop with rfl | rfl | rfl | rfl | rfl | rfl | rfl <;>
      exact fun a b c σ1 σ2 σ3 σ4 σ5 σ6 => rfl
  · intro a b c σ1 σ2 σ3 σ4 σ5 σ6 h
    have h1 : (Except.ok (⟨[Stmt.Expr
        (Expr.Binary (Expr.Binary (Expr.Variable a σ1) .Minus (Expr.Variable b σ3) σ2)
          .Minus (Expr.Variable c σ5) σ4) σ1]⟩ : Program) : Except ErrorInfo Program) =
        .ok ⟨[Stmt.Expr
          (Expr.Binary (Expr.Variable a σ1) .Minus
            (Expr.Binary (Expr.Variable b σ3) .Minus (Expr.Variable c σ5) σ4) σ2) σ1]⟩ := h
    simp at h1
  · intro a b σ0 σ2 σ3 σ4
    rfl

/-- Claim C7 witness: the first conjunct of the theorem applied at the
concrete operator `-` with concrete names and spans, the membership
hypothesis discharged by computation. -/
theorem c7_chains_left_associative_witness :
    parseTokens 50 [⟨.Identifier "a", ⟨0, 1, 1⟩⟩, ⟨.Minus, ⟨1, 1, 1⟩⟩,
        ⟨.Identifier "b", ⟨2, 1, 1⟩⟩, ⟨.Minus, ⟨3, 1, 1⟩⟩,
        ⟨.Identifier "c", ⟨4, 1, 1⟩⟩, ⟨.Semicolon, ⟨5, 1, 1⟩⟩] =
      .ok ⟨[Stmt.Expr
        (Expr.Binary
          (Expr.Binary (Expr.Variable "a" ⟨0, 1, 1⟩) .Minus (Expr.Variable "b" ⟨2, 1, 1⟩) ⟨1, 1, 1⟩)
          .Minus (Expr.Variable "c" ⟨4, 1, 1⟩) ⟨3, 1, 1⟩) ⟨0, 1, 1⟩]⟩ :=
  c7_chains_left_associative.1 TokenType.Minus (by decide) "a" "b" "c"
    ⟨0, 1, 1⟩ ⟨1, 1, 1⟩ ⟨2, 1, 1⟩ ⟨3, 1, 1⟩ ⟨4, 1, 1⟩ ⟨5, 1, 1⟩

/-- Claim C8: parsing is a pure function of the token stream — two runs
over identical token streams return structurally identical results. -/
theorem c8_parse_deterministic (fuel : Nat) (ts1 ts2 : List TokenInfo) (h : ts1 = ts2) :
    parseTokens fuel ts1 = parseTokens fuel ts2 := by
  rw [h]

/-- Claim C8 witness: the theorem applied to a concrete token stream. -/
theorem c8_parse_deterministic_witness :
    parseTokens 1 [⟨.Eof, ⟨0, 0, 1⟩⟩] = parseTokens 1 [⟨.Eof, ⟨0, 0, 1⟩⟩] :=
  c8_parse_deterministic 1 [⟨.Eof, ⟨0, 0, 1⟩⟩] [⟨.Eof, ⟨0, 0, 1⟩⟩] rfl

/-- Claim C9: a token stream whose first token is the end-of-input
sentinel parses successfully to the empty program, for every fuel (the
top-level loop tests for Eof before doing anything else); the same holds
for the token source that is empty from the start, whose first pulled
token is the sentinel. -/
theorem c9_empty_program_ok (fuel : Nat) (σ : Span) (rest : List TokenInfo) :
    parseTokens fuel (⟨.Eof, σ⟩ :: rest) = .ok ⟨[]⟩ ∧
    parseTokens fuel [] = .ok ⟨[]⟩ := by
  cases fuel with
  | zero => exact ⟨rfl, rfl⟩
  | succ n => exact ⟨rfl, rfl⟩

theorem bind_ok_inv {α β : Type} {x : Except ErrorInfo α} {f : α → Except ErrorInfo β} {b : β}
    (h : x >>= f = .ok b) : ∃ a, x = .ok a ∧ f a = .ok b := by
  cases x with
  | error e => simp [Bind.bind, Except.bind] at h
  | ok a => exact ⟨a, rfl, by simpa [Bind.bind, Except.bind] using h⟩

theorem pure_ok_inv {α : Type} {a b : α} (h : (pure a : Except ErrorInfo α) = .ok b) : a = b := by
  simpa [pure, Except.pure] using h

theorem StOk_bind {α : Type} {x : Except ErrorInfo (α × ParserState)}
    {f : α × ParserState → Except ErrorInfo (Stmt × ParserState)}
    (hf : ∀ a s1, x = .ok (a, s1) → StOk (f (a, s1))) : StOk (x >>= f) := by
  intro st s' h
  rcases bind_ok_inv h with ⟨⟨a, s1⟩, h1, h2⟩
  exact hf a s1 h1 st s' h2

theorem OOk_bind {α : Type} {x : Except ErrorInfo (α × ParserState)}
    {f : α × ParserState → Except ErrorInfo (Option Stmt × ParserState)}
    (hf : ∀ a s1, x = .ok (a, s1) → OOk (f (a, s1))) : OOk (x >>= f) := by
  intro o s' h
  rcases bind_ok_inv h with ⟨⟨a, s1⟩, h1, h2⟩
  exact hf a s1 h1 o s' h2

theorem LOk_bind {α : Type} {x : Except ErrorInfo (α × ParserState)}
    {f : α × ParserState → Except ErrorInfo (List Stmt × ParserState)}
    (hf : ∀ a s1, x = .ok (a, s1) → LOk (f (a, s1))) : LOk (x >>= f) := by
  intro l s' h
  rcases bind_ok_inv h with ⟨⟨a, s1⟩, h1, h2⟩
  exact hf a s1 h1 l s' h2

theorem StOk_pure {st : Stmt} {s : ParserState} (h : st.noBreakContinue = true) :
    StOk (pure (st, s) : Except ErrorInfo (Stmt × ParserState)) := by
  intro st' s' hp
  cases pure_ok_inv hp
  exact h

theorem OOk_pure {o : Option Stmt} {s : ParserState} (h : noBCOpt o = true) :
    OOk (pure (o, s) : Except ErrorInfo (Option Stmt × ParserState)) := by
  intro o' s' hp
  cases pure_ok_inv hp
  exact h

theorem LOk_pure {l : List Stmt} {s : ParserState} (h : noBCList l = true) :
    LOk (pure (l, s) : Except ErrorInfo (List Stmt × ParserState)) := by
  intro l' s' hp
  cases pure_ok_inv hp
  exact h

theorem StOk_error {e : ErrorInfo} : StOk (.error e) := by
  intro st s' h
  exact Except.noConfusion h

theorem OOk_error {e : ErrorInfo} : OOk (.error e) := by
  intro o s' h
  exact Except.noConfusion h

theorem LOk_error {e : ErrorInfo} : LOk (.error e) := by
  intro l s' h
  exact Except.noConfusion h

theorem noBC_invariant : ∀ n : Nat,
    (∀ s, StOk (declaration n s)) ∧
    (∀ s, StOk (let_declaration n s)) ∧
    (∀ s, StOk (class_declaration n s)) ∧
    (∀ s, LOk (class_methods_loop n s)) ∧
    (∀ s, StOk (function_declaration n s)) ∧
    (∀ s, StOk (statement n s)) ∧
    (∀ s, StOk (expression_statement n s)) ∧
    (∀ s, StOk (print_statement n s)) ∧
    (∀ s, StOk (return_statement n s)) ∧
    (∀ s, StOk (for_statement n s)) ∧
    (∀ s, OOk (for_initializer n s)) ∧
    (∀ s, StOk (if_statement n s)) ∧
    (∀ s, OOk (if_falsy n s)) ∧
    (∀ s, StOk (while_statement n s)) ∧
    (∀ s, StOk (block_statement n s)) ∧
    (∀ s, LOk (block_loop n s)) ∧
    (∀ s, LOk (program_loop n s)) := by
  intro n
  induction n with
  | zero =>
    refine ⟨fun s => ?_, fun s => ?_, fun s => ?_, fun s => ?_, fun s => ?_, fun s => ?_,
      fun s => ?_, fun s => ?_, fun s => ?_, fun s => ?_, fun s => ?_, fun s => ?_,
      fun s => ?_, fun s => ?_, fun s => ?_, fun s => ?_, fun s => ?_⟩
    · simp only [declaration]; exact StOk_error
    · simp only [let_declaration]; exact StOk_error
    · simp only [class_declaration]; exact StOk_error
    · simp only [class_methods_loop]; split
      · exact LOk_error
      · exact LOk_pure rfl
    · simp only [function_declaration]; exact StOk_error
    · simp only [statement]; exact StOk_error
    · simp only [expression_statement]; exact StOk_error
    · simp only [print_statement]; exact StOk_error
    · simp only [return_statement]; exact StOk_error
    · simp only [for_statement]; exact StOk_error
    · simp only [for_initializer]; exact OOk_error
    · simp only [if_statement]; exact StOk_error
    · simp only [if_falsy]; exact OOk_error
    · simp only [while_statement]; exact StOk_error
    · simp only [block_statement]; exact StOk_error
    · simp only [block_loop]; split
      · exact LOk_error
      · exact LOk_pure rfl
    · simp only [program_loop]; split
      · exact LOk_error
      · exact LOk_pure rfl
  | succ n ih =>
    obtain ⟨ih_decl, ih_let, ih_class, ih_cml, ih_fn, ih_stmt, ih_es, ih_ps, ih_rs,
      ih_for, ih_finit, ih_if, ih_falsy, ih_while, ih_bs, ih_bl, ih_pl⟩ := ih
    refine ⟨fun s => ?_, fun s => ?_, fun s => ?_, fun s => ?_, fun s => ?_, fun s => ?_,
      fun s => ?_, fun s => ?_, fun s => ?_, fun s => ?_, fun s => ?_, fun s => ?_,
      fun s => ?_, fun s => ?_, fun s => ?_, fun s => ?_, fun s => ?_⟩
    -- declaration
    · simp only [declaration]
      split
      · exact ih_let s
      · exact ih_let s
      · exact ih_class s
      · exact ih_fn _
      · exact ih_stmt s
    -- let_declaration
    · simp only [let_declaration]
      apply StOk_bind; intro nsp s1 h1; try dsimp only
      apply StOk_bind; intro value s2 h2; try dsimp only
      apply StOk_bind; intro sp s3 h3; try dsimp only
      exact StOk_pure rfl
    -- class_declaration
    · simp only [class_declaration]
      apply StOk_bind; intro nsp s1 h1; try dsimp only
      apply StOk_bind; intro super_class s2 h2; try dsimp only
      apply StOk_bind; intro sp s3 h3; try dsimp only
      apply StOk_bind; intro methods s4 hm; try dsimp only
      apply StOk_bind; intro sp2 s5 h5; try dsimp only
      apply StOk_pure
      simp only [Stmt.noBreakContinue]
      exact ih_cml _ _ _ hm
    -- class_methods_loop
    · simp only [class_methods_loop]
      split
      · try dsimp only
        apply LOk_bind; intro m s1 hm; try dsimp only
        apply LOk_bind; intro ms s2 hms; try dsimp only
        apply LOk_pure
        simp only [noBCList]
        rw [ih_fn _ _ _ hm, ih_cml _ _ _ hms]
        rfl
      · exact LOk_pure rfl
    -- function_declaration
    · simp only [function_declaration]
      apply StOk_bind; intro nsp s1 h1; try dsimp only
      apply StOk_bind; intro sp s2 h2; try dsimp only
      apply StOk_bind; intro params s3 h3; try dsimp only
      apply StOk_bind; intro sp2 s4 h4; try dsimp only
      apply StOk_bind; intro body s5 hbody; try dsimp only
      apply StOk_pure
      simp only [Stmt.noBreakContinue]
      exact ih_bs _ _ _ hbody
    -- statement
    · simp only [statement]
      split
      · exact ih_ps s
      · exact ih_if s
      · exact ih_while s
      · exact ih_for s
      · exact ih_rs s
      · exact ih_bs s
      · exact ih_es s
    -- expression_statement
    · simp only [expression_statement]
      apply StOk_bind; intro e s1 h1; try dsimp only
      apply StOk_bind; intro sp s2 h2; try dsimp only
      exact StOk_pure rfl
    -- print_statement
    · simp only [print_statement]
      apply StOk_bind; intro e s1 h1; try dsimp only
      apply StOk_bind; intro sp s2 h2; try dsimp only
      exact StOk_pure rfl
    -- return_statement
    · simp only [return_statement]
      apply StOk_bind; intro value s1 h1; try dsimp only
      apply StOk_bind; intro sp s2 h2; try dsimp only
      exact StOk_pure rfl
    -- for_statement
    · simp only [for_statement]
      apply StOk_bind; intro sp0 s1 h1; try dsimp only
      apply StOk_bind; intro initializer s2 hinit; try dsimp only
      apply StOk_bind; intro condition s3 h3; try dsimp only
      apply StOk_bind; intro sp1 s4 h4; try dsimp only
      apply StOk_bind; intro increment s5 h5; try dsimp only
      apply StOk_bind; intro sp2 s6 h6; try dsimp only
      apply StOk_bind; intro body s7 hbody; try dsimp only
      apply StOk_pure
      simp only [Stmt.noBreakContinue]
      rw [ih_finit _ _ _ hinit, ih_stmt _ _ _ hbody]
      rfl
    -- for_initializer
    · simp only [for_initializer]
      split
      · exact OOk_pure rfl
      · apply OOk_bind; intro st s1 hst; try dsimp only
        apply OOk_pure
        simpa only [noBCOpt] using ih_let _ _ _ hst
      · apply OOk_bind; intro st s1 hst; try dsimp only
        apply OOk_pure
        simpa only [noBCOpt] using ih_es _ _ _ hst
    -- if_statement
    · simp only [if_statement]
      apply StOk_bind; intro sp0 s1 h1; try dsimp only
      apply StOk_bind; intro condition s2 h2; try dsimp only
      apply StOk_bind; intro sp1 s3 h3; try dsimp only
      apply StOk_bind; intro truthy s4 htruthy; try dsimp only
      apply StOk_bind; intro falsy s5 hfalsy; try dsimp only
      apply StOk_pure
      simp only [Stmt.noBreakContinue]
      rw [ih_stmt _ _ _ htruthy, ih_falsy _ _ _ hfalsy]
      rfl
    -- if_falsy
    · simp only [if_falsy]
      split
      · apply OOk_bind; intro st s1 hst; try dsimp only
        apply OOk_pure
        simpa only [noBCOpt] using ih_stmt _ _ _ hst
      · exact OOk_pure rfl
    -- while_statement
    · simp only [while_statement]
      apply StOk_bind; intro sp0 s1 h1; try dsimp only
      apply StOk_bind; intro condition s2 h2; try dsimp only
      apply StOk_bind; intro sp1 s3 h3; try dsimp only
      apply StOk_bind; intro body s4 hbody; try dsimp only
      apply StOk_pure
      simp only [Stmt.noBreakContinue]
      exact ih_stmt _ _ _ hbody
    -- block_statement
    · simp only [block_statement]
      apply StOk_bind; intro sp s1 h1; try dsimp only
      apply StOk_bind; intro stmts s2 hstmts; try dsimp only
      apply StOk_bind; intro sp2 s3 h3; try dsimp only
      apply StOk_pure
      simp only [Stmt.noBreakContinue]
      exact ih_bl _ _ _ hstmts
    -- block_loop
    · simp only [block_loop]
      split
      · try dsimp only
        apply LOk_bind; intro st s1 hst; try dsimp only
        apply LOk_bind; intro rest s2 hrest; try dsimp only
        apply LOk_pure
        simp only [noBCList]
        rw [ih_decl _ _ _ hst, ih_bl _ _ _ hrest]
        rfl
      · exact LOk_pure rfl
    -- program_loop
    · simp only [program_loop]
      split
      · try dsimp only
        apply LOk_bind; intro st s1 hst; try dsimp only
        apply LOk_bind; intro rest s2 hrest; try dsimp only
        apply LOk_pure
        simp only [noBCList]
        rw [ih_decl _ _ _ hst, ih_pl _ _ _ hrest]
        rfl
      · exact LOk_pure rfl

/-- Claim C10: the parser never constructs a `Break` or a `Continue`
statement — every statement anywhere in a successfully parsed program
satisfies `Stmt.noBreakContinue`, for every token stream and every fuel. -/
theorem c10_no_break_continue (fuel : Nat) (ts : List TokenInfo) (prog : Program)
    (h : parseTokens fuel ts = .ok prog) : noBCList prog.stmt = true := by
  have hpl := (noBC_invariant fuel).2.2.2.2.2.2.2.2.2.2.2.2.2.2.2.2
  unfold parseTokens parse_program at h
  rcases bind_ok_inv h with ⟨⟨l, s'⟩, h1, h2⟩
  dsimp only at h2
  cases pure_ok_inv h2
  exact hpl _ l s' h1

/-- Claim C10 witness: the theorem applied to the concrete empty token
stream, whose parse succeeds with the empty program by computation. -/
theorem c10_no_break_continue_witness : noBCList (Program.mk []).stmt = true :=
  c10_no_break_continue 1 [] ⟨[]⟩ rfl
